import Mathlib

/-!
Verification development for the Realtor Media API backend (src/main.py).

The file shallowly embeds the three route handlers that the claims are
about — the upload handler, the listing handler, and the diagnostics
handler — together with the pieces of the Python standard library they
use (os.path.splitext, the truthiness of the `or` operator, str slicing)
and an explicit model of the two external effects: the storage directory
(a finite map from filename to file bytes) and the document store.

Nondeterminism of the environment (the random hex token from
uuid.uuid4().hex, the PUBLIC_BACKEND_URL variable, the outcome of the
document-store call, the outcome of the cleanup os.remove) is passed in
explicitly as an environment value, so every theorem quantifies over all
possible behaviours of those collaborators.
-/

namespace RealtorMedia

/-- Python `x or default` on an optional string: `None` and the empty
string are falsy, any other string is returned unchanged.  Used for
`file.content_type or "application/octet-stream"`,
`file.filename or ""` and `os.getenv("PUBLIC_BACKEND_URL") or ""`. -/
def pyOr (x : Option String) (default : String) : String :=
  match x with
  | some s => if s = "" then default else s
  | none => default

/-- Python `str.rfind`: index of the last occurrence of the character,
`-1` when absent (indices as integers, exactly as in CPython). -/
def rfindChar (cs : List Char) (c : Char) : Int :=
  cs.enum.foldl (fun acc p => if p.2 = c then (p.1 : Int) else acc) (-1)

/-- `os.path.splitext` (posixpath): split at the last dot, provided the
dot comes after the last path separator and at least one character of
the basename before it is not a dot (leading dots never start an
extension, so `.bashrc` has no extension). -/
def splitext (p : String) : String × String :=
  let cs := p.toList
  let sepIndex := rfindChar cs '/'
  let dotIndex := rfindChar cs '.'
  if sepIndex < dotIndex then
    if (List.range cs.length).any
        (fun i => decide (sepIndex < (i : Int) ∧ (i : Int) < dotIndex)
          && cs.getD i '.' != '.') then
      (String.mk (cs.take dotIndex.toNat), String.mk (cs.drop dotIndex.toNat))
    else (p, "")
  else (p, "")

/-- An HTTP error response as raised through HTTPException. -/
structure HTTPError where
  status : Nat
  detail : String
deriving DecidableEq

/-- The media metadata record built by the upload handler
(schemas.Media as instantiated at src/main.py lines 102-107). -/
structure Media where
  title : String
  description : Option String
  kind : String
  filename : String
  url : String
  size : Nat
  content_type : String
deriving DecidableEq

/-- Modelled from the spec: `schemas.Media` is imported by src/main.py
(line 101) but its module is not under src/.  Section 3 of the spec
states that `title` is required non-empty text, so constructing the
record validates the title and fails (a pydantic validation error,
raised inside the try block of the handler) when it is empty.  All the
other fields are supplied by the handler itself. -/
def mkMedia (title : String) (description : Option String)
    (kind filename url : String) (size : Nat) (content_type : String) :
    Except String Media :=
  if title = "" then .error "validation error for Media: title must be non-empty"
  else .ok ⟨title, description, kind, filename, url, size, content_type⟩

/-- The storage directory: a finite map from filename to file bytes.
`open(path, "wb")` followed by `f.write(contents)` replaces the file if
the name already exists, otherwise creates it. -/
def writeFile : List (String × List Nat) → String → List Nat →
    List (String × List Nat)
  | [], name, contents => [(name, contents)]
  | p :: fs, name, contents =>
      if p.1 = name then (name, contents) :: fs
      else p :: writeFile fs name contents

/-- `os.remove`: delete the entry for the given filename. -/
def removeFile : List (String × List Nat) → String → List (String × List Nat)
  | [], _ => []
  | p :: fs, name =>
      if p.1 = name then removeFile fs name else p :: removeFile fs name

/-- `os.path.getsize`: the byte length of the file currently stored
under the name, none when no such file exists. -/
def getsize : List (String × List Nat) → String → Option Nat
  | [], _ => none
  | p :: fs, name => if p.1 = name then some p.2.length else getsize fs name

/-- The observable state the upload handler touches: the files in the
storage directory and the documents of the `media` collection. -/
structure SysState where
  files : List (String × List Nat)
  docs : List Media
deriving DecidableEq

/-- The environment of one upload request: the hex token produced by
uuid.uuid4().hex, the PUBLIC_BACKEND_URL variable (None when unset),
the outcome of create_document (inserted id, or the message of the
exception it raised), and whether the cleanup os.remove succeeds. -/
structure UploadEnv where
  hexToken : String
  publicBackendUrl : Option String
  dbResult : Except String String
  removeSucceeds : Bool

/-- The success payload of the upload endpoint:
`{"id": ..., "message": "Uploaded", "item": ...}`. -/
structure UploadResp where
  id : String
  message : String
  item : Media
deriving DecidableEq

/-- Python `s.startswith(p)`: the first `len(p)` characters of `s`
equal `p`. -/
def startswith (s p : String) : Bool :=
  decide (s.toList.take p.toList.length = p.toList)

/-- The kind derived from the content type (src/main.py lines 77-79). -/
def kindFor (content_type : String) : String :=
  if startswith content_type "video/" then "video"
  else if startswith content_type "image/" then "image"
  else "other"

/-- The extension chosen at src/main.py line 84:
`os.path.splitext(file.filename or "")[1] or (".mp4" if video else ".jpg")`. -/
def extFor (kind : String) (fileFilename : Option String) : String :=
  let e := (splitext (pyOr fileFilename "")).2
  if e = "" then (if kind = "video" then ".mp4" else ".jpg") else e

/-- The stored filename `f"{uuid.uuid4().hex}{ext}"` of an upload
(src/main.py line 85). -/
def storedName (env : UploadEnv) (fileContentType fileFilename : Option String) :
    String :=
  env.hexToken ++
    extFor (kindFor (pyOr fileContentType "application/octet-stream")) fileFilename

/-- The public URL of a stored file, src/main.py lines 95-96: the
optional PUBLIC_BACKEND_URL prefix joined with /uploads/ and the stored
name, root-relative when the variable is unset or empty. -/
def urlFor (env : UploadEnv) (unique_name : String) : String :=
  let base_url := pyOr env.publicBackendUrl ""
  if base_url = "" then "/uploads/" ++ unique_name
  else base_url ++ "/uploads/" ++ unique_name

/-- The upload handler, src/main.py lines 69-121.  Validation happens
before any file is written; the file bytes are written under the stored
name; the size is recomputed from the storage directory; the metadata
record is built and handed to create_document, and when either of those
raises the just-written file is removed (the removal outcome is ignored)
and an HTTP 500 carrying the cause message is raised.  The HTTPException
values raised inside the try block are re-raised unchanged by the
`except HTTPException` arm at line 118. -/
def upload_media (env : UploadEnv) (st : SysState)
    (fileContentType fileFilename : Option String)
    (title : String) (description : Option String) (contents : List Nat) :
    Except HTTPError UploadResp × SysState :=
  let content_type := pyOr fileContentType "application/octet-stream"
  let kind := kindFor content_type
  if kind = "other" then
    (.error ⟨400, "Only images and videos are allowed"⟩, st)
  else
    let unique_name := storedName env fileContentType fileFilename
    let files1 := writeFile st.files unique_name contents
    let size := (getsize files1 unique_name).getD 0
    let url := urlFor env unique_name
    let attempt : Except String (String × Media) := do
      let media_doc ← mkMedia title description kind unique_name url size content_type
      let inserted_id ← env.dbResult
      pure (inserted_id, media_doc)
    match attempt with
    | .ok (inserted_id, media_doc) =>
        (.ok ⟨inserted_id, "Uploaded", media_doc⟩,
          ⟨files1, st.docs ++ [media_doc]⟩)
    | .error e =>
        let files2 := if env.removeSucceeds then removeFile files1 unique_name
                      else files1
        (.error ⟨500, "Database error: " ++ e⟩, ⟨files2, st.docs⟩)

/-- A document-store value, as far as the listing handler inspects one:
the `_id` of a fetched record may be any store value (an ObjectId-like
or plain string, an integer, or null).  Truthiness and str() follow
Python. -/
inductive Value where
  | vstr (s : String)
  | vint (n : Int)
  | vnone
deriving DecidableEq

/-- Python truthiness of a value: empty string, zero and None are falsy. -/
def Value.truthy : Value → Bool
  | .vstr s => s ≠ ""
  | .vint n => n ≠ 0
  | .vnone => false

/-- Python `str(v)` on a store value. -/
def Value.pyStr : Value → String
  | .vstr s => s
  | .vint n => toString n
  | .vnone => "None"

/-- A document fetched by get_documents("media", {}, limit): the `_id`
entry (absent when the key is missing), the `created_at` timestamp
assigned by the store layer (absent when missing), and the rest of the
record, which the listing handler never touches. -/
structure Doc where
  idField : Option Value
  created_at : Option Nat
  rest : List (String × Value)
deriving DecidableEq

/-- The sort key `x.get("created_at")` of a document, defaulted for the
branch of the model where every document carries the timestamp. -/
def keyOf (d : Doc) : Nat := d.created_at.getD 0

/-- The in-place `_id` normalization of src/main.py lines 135-137:
`if it.get("_id"): it["_id"] = str(it["_id"])`.  A missing key makes
`get` return None, which is falsy, so only a truthy `_id` is replaced
by its str() form. -/
def normalizeId (d : Doc) : Doc :=
  let v := d.idField.getD .vnone
  if v.truthy then { d with idField := some (.vstr v.pyStr) } else d

/-- Whether the `_id` entry of a document is present and holds a string. -/
def isStringId (d : Doc) : Bool :=
  match d.idField with
  | some (.vstr _) => true
  | _ => false

/-- The environment of one listing request: the outcome of
get_documents (the fetched documents, or the message of the exception
it raised). -/
structure ListEnv where
  fetch : Except String (List Doc)

/-- The listing handler, src/main.py lines 124-140.  The fetched list
is sorted by `created_at` descending: CPython list.sort is a stable
sort, and the model uses a stable insertion sort with the same total
preorder, which yields the same list.  When some document lacks
`created_at`, the key function returns None, the first comparison
against None raises TypeError (a list of at most one element is sorted
without comparisons), the `except` arm at line 132 swallows it and the
handler keeps the list it has (the failed in-place sort leaves some
permutation of the items; the claims about this branch depend only on
the absence of a crash, and the model keeps the original order).  Then
every document gets its `_id` normalized, and the list is returned. -/
def list_media (env : ListEnv) : Except HTTPError (List Doc) :=
  match env.fetch with
  | .error e => .error ⟨500, "Failed to list media: " ++ e⟩
  | .ok items =>
      let sorted :=
        if items.all (fun d => d.created_at.isSome) then
          items.insertionSort (fun a b => keyOf b ≤ keyOf a)
        else items
      .ok (sorted.map normalizeId)

/-- A live database handle as the diagnostics handler probes it: the
`name` attribute when present (hasattr check at line 48), and the
outcome of list_collection_names(). -/
structure DbHandle where
  name : Option String
  listCollectionNames : Except String (List String)

/-- The outcome of `from database import db` and of the subsequent uses
of the handle inside the diagnostics handler: the import raises
ImportError, or raises some other exception, or yields a handle that is
None, or yields a live handle. -/
inductive DbImport where
  | importErr
  | otherErr (msg : String)
  | handle (db : Option DbHandle)

/-- The payload of the diagnostics endpoint.  `database_url` and
`database_name` start as None and are overwritten before returning. -/
structure TestResponse where
  backend : String
  database : String
  database_url : Option String
  database_name : Option String
  connection_status : String
  collections : List String
deriving DecidableEq

/-- The diagnostics handler, src/main.py lines 33-65.  Every fallible
step of the body sits inside a try arm, so the translation is a match
on the environment outcome; the handler produces a payload (an HTTP 200
response), never an HTTPError. -/
def test_database (imp : DbImport) (dbUrlSet dbNameSet : Bool) :
    Except HTTPError TestResponse :=
  let response0 : TestResponse :=
    ⟨"✅ Running", "❌ Not Available", none, none, "Not Connected", []⟩
  let response1 :=
    match imp with
    | .importErr =>
        { response0 with
          database := "❌ Database module not found (run enable-database first)" }
    | .otherErr e =>
        { response0 with database := "❌ Error: " ++ e.take 50 }
    | .handle none =>
        { response0 with database := "⚠️  Available but not initialized" }
    | .handle (some db) =>
        let r := { response0 with
          database := "✅ Available"
          database_url := some "✅ Configured"
          database_name := some (match db.name with
            | some n => n
            | none => "✅ Connected")
          connection_status := "Connected" }
        match db.listCollectionNames with
        | .ok collections =>
            { r with collections := collections.take 10
                     database := "✅ Connected & Working" }
        | .error e =>
            { r with database := "⚠️  Connected but Error: " ++ e.take 50 }
  .ok { response1 with
    database_url := some (if dbUrlSet then "✅ Set" else "❌ Not Set")
    database_name := some (if dbNameSet then "✅ Set" else "❌ Not Set") }

/-! ### Helper lemmas about the embedded library functions -/

/-- Writing a file and then asking the storage directory for its size
yields exactly the length of the written bytes. -/
theorem getsize_writeFile (fs : List (String × List Nat)) (n : String)
    (c : List Nat) : getsize (writeFile fs n c) n = some c.length := by
  induction fs with
  | nil => simp [writeFile, getsize]
  | cons p fs ih =>
      by_cases h : p.1 = n
      · simp [writeFile, h, getsize]
      · simp [writeFile, h, getsize, ih]

/-- After removing a file, the storage directory holds no file of that
name. -/
theorem getsize_removeFile (fs : List (String × List Nat)) (n : String) :
    getsize (removeFile fs n) n = none := by
  induction fs with
  | nil => simp [removeFile, getsize]
  | cons p fs ih =>
      by_cases h : p.1 = n
      · simp [removeFile, h, ih]
      · simp [removeFile, h, getsize, ih]

theorem mk_append_mk (a b : List Char) :
    String.mk a ++ String.mk b = String.mk (a ++ b) := rfl

/-- The two parts of splitext always reassemble to the input: the
extension is literally a trailing slice of the original filename. -/
theorem splitext_append (p : String) :
    (splitext p).1 ++ (splitext p).2 = p := by
  simp only [splitext]
  split
  · split
    · rw [mk_append_mk, List.take_append_drop]
      rfl
    · exact String.append_empty p
  · exact String.append_empty p

/-- No string starts with both `image/` and `video/`. -/
theorem startswith_image_not_video (s : String)
    (h1 : startswith s "image/" = true) (h2 : startswith s "video/" = true) :
    False := by
  unfold startswith at h1 h2
  rw [decide_eq_true_iff] at h1 h2
  have hl : ("image/".toList.length : Nat) = "video/".toList.length := rfl
  rw [hl, h2] at h1
  exact absurd h1 (by decide)

/-- A valid declared content type survives pyOr and yields kind image
or video. -/
theorem kindFor_valid (ct : String)
    (h : startswith ct "image/" = true ∨ startswith ct "video/" = true) :
    pyOr (some ct) "application/octet-stream" = ct ∧
    (kindFor ct = "image" ∨ kindFor ct = "video") := by
  have hne : ct ≠ "" := by
    intro hc
    subst hc
    rcases h with h | h <;> exact absurd h (by decide)
  refine ⟨by simp [pyOr, hne], ?_⟩
  unfold kindFor
  by_cases hv : startswith ct "video/" = true
  · simp [hv]
  · rcases h with h | h
    · simp [hv, h]
    · exact absurd h hv

/-- Normalization never touches the sort key. -/
theorem keyOf_normalizeId (d : Doc) : keyOf (normalizeId d) = keyOf d := by
  simp only [normalizeId, keyOf]
  split <;> rfl

/-- What normalization does to the `_id` entry: a truthy value becomes
its string form, anything else is left alone. -/
theorem normalizeId_spec (d : Doc) :
    ((d.idField.getD .vnone).truthy = true →
      ∃ s, (normalizeId d).idField = some (.vstr s)) ∧
    ((d.idField.getD .vnone).truthy = false → normalizeId d = d) := by
  unfold normalizeId
  constructor
  · intro h
    simp only [h, if_true]
    exact ⟨_, rfl⟩
  · intro h
    simp [h]

/-! ### Claim theorems -/

/-- Claim C1: an upload whose declared content type begins with neither
`image/` nor `video/` fails with HTTP 400 and its exact detail message,
and the system state — the storage directory and the document store —
is returned unchanged: no file is written and no record is created. -/
theorem upload_rejects_disallowed_type (env : UploadEnv) (st : SysState)
    (ct : String) (fn : Option String) (title : String)
    (description : Option String) (contents : List Nat)
    (h1 : startswith ct "image/" = false) (h2 : startswith ct "video/" = false) :
    upload_media env st (some ct) fn title description contents =
      (.error ⟨400, "Only images and videos are allowed"⟩, st) := by
  have hk : kindFor (pyOr (some ct) "application/octet-stream") = "other" := by
    unfold pyOr
    by_cases hc : ct = ""
    · simp only [hc, if_true]
      decide
    · simp only [hc, if_false]
      unfold kindFor
      simp [h1, h2]
  unfold upload_media
  simp [hk]

/-- Witness for C1 at content type text/plain. -/
theorem upload_rejects_disallowed_type_witness :
    startswith "text/plain" "image/" = false ∧
    startswith "text/plain" "video/" = false ∧
    upload_media ⟨"deadbeef", none, .ok "id1", true⟩ ⟨[], []⟩
        (some "text/plain") (some "notes.txt") "t" none [1, 2] =
      (.error ⟨400, "Only images and videos are allowed"⟩, ⟨[], []⟩) :=
  ⟨by decide, by decide,
    upload_rejects_disallowed_type ⟨"deadbeef", none, .ok "id1", true⟩ ⟨[], []⟩
      "text/plain" (some "notes.txt") "t" none [1, 2] (by decide) (by decide)⟩

/-- Claim C10: a file part without any declared content type is read as
`application/octet-stream`, which is classified `other`, so the upload
is rejected with HTTP 400 and the state is unchanged — no crash, no
stored file, no record. -/
theorem upload_missing_content_type_rejected (env : UploadEnv) (st : SysState)
    (fn : Option String) (title : String) (description : Option String)
    (contents : List Nat) :
    pyOr none "application/octet-stream" = "application/octet-stream" ∧
    kindFor "application/octet-stream" = "other" ∧
    upload_media env st none fn title description contents =
      (.error ⟨400, "Only images and videos are allowed"⟩, st) := by
  refine ⟨rfl, by decide, ?_⟩
  unfold upload_media
  have hk : kindFor (pyOr none "application/octet-stream") = "other" := by decide
  simp [hk]

/-- Claim C2: when the file write has happened and the metadata write
then fails, the handler answers HTTP 500 with the cause message inside
the detail, creates no record, swallows the outcome of the cleanup
deletion (the same 500 is produced whether os.remove succeeds or not),
and when the deletion succeeds the storage directory afterwards holds
no file under the name of this upload. -/
theorem upload_db_failure_cleanup (env : UploadEnv) (st : SysState)
    (ctOpt fn : Option String) (title : String) (description : Option String)
    (contents : List Nat) (e : String)
    (hct : kindFor (pyOr ctOpt "application/octet-stream") ≠ "other")
    (htitle : title ≠ "")
    (hdb : env.dbResult = .error e) :
    (upload_media env st ctOpt fn title description contents).1 =
      .error ⟨500, "Database error: " ++ e⟩ ∧
    (upload_media env st ctOpt fn title description contents).2.docs = st.docs ∧
    (env.removeSucceeds = true →
      getsize (upload_media env st ctOpt fn title description contents).2.files
        (storedName env ctOpt fn) = none) := by
  have hmk : ∀ d k f u s c, mkMedia title d k f u s c =
      .ok ⟨title, d, k, f, u, s, c⟩ := by
    intro d k f u s c
    simp [mkMedia, htitle]
  unfold upload_media
  simp only [hct, if_false, hmk, hdb, bind, Except.bind]
  refine ⟨by trivial, by trivial, fun hrm => ?_⟩
  simp only [hrm, if_true]
  exact getsize_removeFile _ _

/-- Witness for C2: a png upload whose create_document raises. -/
theorem upload_db_failure_cleanup_witness :
    kindFor (pyOr (some "image/png") "application/octet-stream") ≠ "other" ∧
    "Front yard" ≠ "" ∧
    (⟨"deadbeef", none, .error "boom", true⟩ : UploadEnv).dbResult =
      .error "boom" ∧
    ((upload_media ⟨"deadbeef", none, .error "boom", true⟩ ⟨[], []⟩
        (some "image/png") (some "photo.png") "Front yard" none [7, 7]).1 =
      .error ⟨500, "Database error: boom"⟩ ∧
    (upload_media ⟨"deadbeef", none, .error "boom", true⟩ ⟨[], []⟩
        (some "image/png") (some "photo.png") "Front yard" none [7, 7]).2.docs = [] ∧
    ((⟨"deadbeef", none, .error "boom", true⟩ : UploadEnv).removeSucceeds = true →
      getsize (upload_media ⟨"deadbeef", none, .error "boom", true⟩ ⟨[], []⟩
          (some "image/png") (some "photo.png") "Front yard" none [7, 7]).2.files
        (storedName ⟨"deadbeef", none, .error "boom", true⟩
          (some "image/png") (some "photo.png")) = none)) :=
  ⟨by decide, by decide, rfl,
    upload_db_failure_cleanup ⟨"deadbeef", none, .error "boom", true⟩ ⟨[], []⟩
      (some "image/png") (some "photo.png") "Front yard" none [7, 7] "boom"
      (by decide) (by decide) rfl⟩

/-- Claim C3: a successful upload reports and persists exactly the byte
length that the storage directory holds for the stored file after the
write — the size read back from disk — and the handler receives no
client-declared length at all. -/
theorem upload_success_size (env : UploadEnv) (st : SysState)
    (ctOpt fn : Option String) (title : String) (description : Option String)
    (contents : List Nat) (resp : UploadResp) (st' : SysState)
    (h : upload_media env st ctOpt fn title description contents = (.ok resp, st')) :
    resp.item.size = contents.length ∧
    getsize st'.files resp.item.filename = some contents.length ∧
    st'.docs = st.docs ++ [resp.item] := by
  unfold upload_media at h
  by_cases hk : kindFor (pyOr ctOpt "application/octet-stream") = "other"
  · simp [hk] at h
  · simp only [hk, if_false] at h
    by_cases ht : title = ""
    · simp [mkMedia, ht, bind, Except.bind] at h
    · have hmk : ∀ d k f u s c, mkMedia title d k f u s c =
          .ok ⟨title, d, k, f, u, s, c⟩ := by
        intro d k f u s c
        simp [mkMedia, ht]
      cases hdb : env.dbResult with
      | error e =>
          simp [hmk, hdb, bind, Except.bind] at h
      | ok iid =>
          simp only [hmk, hdb, bind, Except.bind, pure, Except.pure,
            Prod.mk.injEq, Except.ok.injEq] at h
          obtain ⟨hresp, hst⟩ := h
          subst hresp
          subst hst
          refine ⟨?_, ?_, rfl⟩
          · simp [getsize_writeFile]
          · simp [getsize_writeFile]

/-- Witness for C3: a two-byte png upload whose store insert succeeds. -/
theorem upload_success_size_witness :
    upload_media ⟨"deadbeef", none, .ok "id1", true⟩ ⟨[], []⟩
        (some "image/png") (some "photo.png") "Front yard" none [7, 7] =
      (.ok ⟨"id1", "Uploaded",
          ⟨"Front yard", none, "image", "deadbeef.png",
            "/uploads/deadbeef.png", 2, "image/png"⟩⟩,
        ⟨[("deadbeef.png", [7, 7])],
          [⟨"Front yard", none, "image", "deadbeef.png",
            "/uploads/deadbeef.png", 2, "image/png"⟩]⟩) ∧
    (⟨"Front yard", none, "image", "deadbeef.png", "/uploads/deadbeef.png",
        2, "image/png"⟩ : Media).size = [7, 7].length ∧
    getsize [("deadbeef.png", [7, 7])] "deadbeef.png" = some [7, 7].length :=
  ⟨by rfl, (upload_success_size ⟨"deadbeef", none, .ok "id1", true⟩ ⟨[], []⟩
      (some "image/png") (some "photo.png") "Front yard" none [7, 7] _ _ (by rfl)).1,
    (upload_success_size ⟨"deadbeef", none, .ok "id1", true⟩ ⟨[], []⟩
      (some "image/png") (some "photo.png") "Front yard" none [7, 7] _ _ (by rfl)).2.1⟩

/-- Any record the upload handler adds to the document store is fully
determined: the title passed the non-emptiness validation, the content
type passed the kind check, and every field is the one built at
src/main.py lines 84-107, with the size read back from the storage
directory. -/
theorem upload_new_doc (env : UploadEnv) (st : SysState)
    (ctOpt fn : Option String) (title : String) (description : Option String)
    (contents : List Nat) (d : Media)
    (hd : d ∈ (upload_media env st ctOpt fn title description contents).2.docs)
    (hnew : d ∉ st.docs) :
    title ≠ "" ∧
    kindFor (pyOr ctOpt "application/octet-stream") ≠ "other" ∧
    d = ⟨title, description, kindFor (pyOr ctOpt "application/octet-stream"),
      storedName env ctOpt fn, urlFor env (storedName env ctOpt fn),
      contents.length, pyOr ctOpt "application/octet-stream"⟩ := by
  unfold upload_media at hd
  by_cases hk : kindFor (pyOr ctOpt "application/octet-stream") = "other"
  · simp only [hk, if_true] at hd
    exact absurd hd hnew
  · simp only [hk, if_false] at hd
    by_cases ht : title = ""
    · simp [mkMedia, ht, bind, Except.bind] at hd
      exact absurd hd hnew
    · have hmk : ∀ dsc k f u s c, mkMedia title dsc k f u s c =
          .ok ⟨title, dsc, k, f, u, s, c⟩ := by
        intro dsc k f u s c
        simp [mkMedia, ht]
      cases hdb : env.dbResult with
      | error e =>
          simp [hmk, hdb, bind, Except.bind] at hd
          exact absurd hd hnew
      | ok iid =>
          simp only [hmk, hdb, bind, Except.bind, pure, Except.pure,
            List.mem_append, List.mem_singleton] at hd
          rcases hd with hd | hd
          · exact absurd hd hnew
          · subst hd
            exact ⟨ht, hk, by simp [getsize_writeFile]⟩

/-- Claim C4: a record persisted by the upload handler has kind image
or video and never other; the kind is video exactly when the effective
declared content type begins with `video/`, and image exactly when it
begins with `image/`. -/
theorem upload_record_kind (env : UploadEnv) (st : SysState)
    (ctOpt fn : Option String) (title : String) (description : Option String)
    (contents : List Nat) (d : Media)
    (hd : d ∈ (upload_media env st ctOpt fn title description contents).2.docs)
    (hnew : d ∉ st.docs) :
    (d.kind = "image" ∨ d.kind = "video") ∧ d.kind ≠ "other" ∧
    (d.kind = "video" ↔
      startswith (pyOr ctOpt "application/octet-stream") "video/" = true) ∧
    (d.kind = "image" ↔
      startswith (pyOr ctOpt "application/octet-stream") "image/" = true) := by
  obtain ⟨-, hk, hdEq⟩ := upload_new_doc env st ctOpt fn title description contents d hd hnew
  have hkind : d.kind = kindFor (pyOr ctOpt "application/octet-stream") := by
    rw [hdEq]
  rw [hkind]
  unfold kindFor at hk ⊢
  by_cases hv : startswith (pyOr ctOpt "application/octet-stream") "video/" = true
  · have hi : startswith (pyOr ctOpt "application/octet-stream") "image/" = false := by
      by_contra hc
      exact startswith_image_not_video _ (by simpa using hc) hv
    simp [hv, hi]
  · by_cases hi : startswith (pyOr ctOpt "application/octet-stream") "image/" = true
    · simp [hv, hi] at hk ⊢
    · simp [hv, hi] at hk

/-- Witness for C4: the record of a successful mp4 upload. -/
theorem upload_record_kind_witness :
    (⟨"tour", none, "video", "deadbeef.mp4", "/uploads/deadbeef.mp4", 1,
        "video/mp4"⟩ : Media) ∈
      (upload_media ⟨"deadbeef", none, .ok "id9", true⟩ ⟨[], []⟩
        (some "video/mp4") none "tour" none [9]).2.docs ∧
    (⟨"tour", none, "video", "deadbeef.mp4", "/uploads/deadbeef.mp4", 1,
        "video/mp4"⟩ : Media) ∉ ([] : List Media) ∧
    ((⟨"tour", none, "video", "deadbeef.mp4", "/uploads/deadbeef.mp4", 1,
        "video/mp4"⟩ : Media).kind = "video" ↔
      startswith (pyOr (some "video/mp4") "application/octet-stream") "video/" = true) :=
  ⟨by decide, by decide,
    (upload_record_kind ⟨"deadbeef", none, .ok "id9", true⟩ ⟨[], []⟩
      (some "video/mp4") none "tour" none [9] _ (by decide) (by decide)).2.2.1⟩

/-- Claim C8: a record persisted by the upload handler carries a
non-empty title.  Modelled from the spec because the pydantic Media
schema enforcing it lives outside src/ (see mkMedia). -/
theorem upload_record_title_nonempty (env : UploadEnv) (st : SysState)
    (ctOpt fn : Option String) (title : String) (description : Option String)
    (contents : List Nat) (d : Media)
    (hd : d ∈ (upload_media env st ctOpt fn title description contents).2.docs)
    (hnew : d ∉ st.docs) : d.title ≠ "" := by
  obtain ⟨ht, -, hdEq⟩ := upload_new_doc env st ctOpt fn title description contents d hd hnew
  rw [hdEq]
  exact ht

/-- Witness for C8: the record of a successful png upload. -/
theorem upload_record_title_nonempty_witness :
    (⟨"Front yard", none, "image", "deadbeef.png", "/uploads/deadbeef.png", 2,
        "image/png"⟩ : Media) ∈
      (upload_media ⟨"deadbeef", none, .ok "id1", true⟩ ⟨[], []⟩
        (some "image/png") (some "photo.png") "Front yard" none [7, 7]).2.docs ∧
    (⟨"Front yard", none, "image", "deadbeef.png", "/uploads/deadbeef.png", 2,
        "image/png"⟩ : Media) ∉ ([] : List Media) ∧
    (⟨"Front yard", none, "image", "deadbeef.png", "/uploads/deadbeef.png", 2,
        "image/png"⟩ : Media).title ≠ "" :=
  ⟨by decide, by decide,
    upload_record_title_nonempty ⟨"deadbeef", none, .ok "id1", true⟩ ⟨[], []⟩
      (some "image/png") (some "photo.png") "Front yard" none [7, 7] _
      (by decide) (by decide)⟩

/-- The upload result depends on the client-supplied filename only
through the splitext extension: two filenames with the same extension
produce identical outcomes. -/
theorem upload_media_filename_congr (env : UploadEnv) (st : SysState)
    (ctOpt fn fn2 : Option String) (title : String)
    (description : Option String) (contents : List Nat)
    (hsuf : (splitext (pyOr fn2 "")).2 = (splitext (pyOr fn "")).2) :
    upload_media env st ctOpt fn2 title description contents =
      upload_media env st ctOpt fn title description contents := by
  have hext : storedName env ctOpt fn2 = storedName env ctOpt fn := by
    simp [storedName, extFor, hsuf]
  unfold upload_media
  rw [hext]

/-- Claim C6: the file of a successful upload is stored under the
process-generated hex token followed by an extension: the splitext
extension of the client filename when there is one (a literal trailing
slice of that filename, as splitext reassembles), else `.mp4` for a
video and `.jpg` for an image; nothing else of the client filename
matters — any filename with the same extension yields the very same
outcome. -/
theorem upload_filename_token_extension (env : UploadEnv) (st : SysState)
    (ctOpt fn : Option String) (title : String) (description : Option String)
    (contents : List Nat) (resp : UploadResp) (st' : SysState)
    (h : upload_media env st ctOpt fn title description contents = (.ok resp, st')) :
    resp.item.filename =
      env.hexToken ++
        (if (splitext (pyOr fn "")).2 = "" then
          (if kindFor (pyOr ctOpt "application/octet-stream") = "video"
           then ".mp4" else ".jpg")
         else (splitext (pyOr fn "")).2) ∧
    (splitext (pyOr fn "")).1 ++ (splitext (pyOr fn "")).2 = pyOr fn "" ∧
    (∀ fn2, (splitext (pyOr fn2 "")).2 = (splitext (pyOr fn "")).2 →
      upload_media env st ctOpt fn2 title description contents = (.ok resp, st')) := by
  refine ⟨?_, splitext_append _, fun fn2 hsuf => ?_⟩
  · unfold upload_media at h
    by_cases hk : kindFor (pyOr ctOpt "application/octet-stream") = "other"
    · simp [hk] at h
    · simp only [hk, if_false] at h
      by_cases ht : title = ""
      · simp [mkMedia, ht, bind, Except.bind] at h
      · have hmk : ∀ dsc k f u s c, mkMedia title dsc k f u s c =
            .ok ⟨title, dsc, k, f, u, s, c⟩ := by
          intro dsc k f u s c
          simp [mkMedia, ht]
        cases hdb : env.dbResult with
        | error e =>
            simp [hmk, hdb, bind, Except.bind] at h
        | ok iid =>
            simp only [hmk, hdb, bind, Except.bind, pure, Except.pure,
              Prod.mk.injEq, Except.ok.injEq] at h
            obtain ⟨hresp, -⟩ := h
            subst hresp
            simp [storedName, extFor]
  · rw [upload_media_filename_congr env st ctOpt fn fn2 title description contents hsuf]
    exact h

/-- Witness for C6: a png upload keeps the `.png` extension behind the
hex token, and any other filename ending in `.png` gives the same
outcome. -/
theorem upload_filename_token_extension_witness :
    (⟨"id1", "Uploaded", ⟨"Front yard", none, "image", "deadbeef.png",
        "/uploads/deadbeef.png", 2, "image/png"⟩⟩ : UploadResp).item.filename =
      "deadbeef" ++
        (if (splitext (pyOr (some "photo.png") "")).2 = "" then
          (if kindFor (pyOr (some "image/png") "application/octet-stream") = "video"
           then ".mp4" else ".jpg")
         else (splitext (pyOr (some "photo.png") "")).2) ∧
    (splitext (pyOr (some "photo.png") "")).1 ++
        (splitext (pyOr (some "photo.png") "")).2 = pyOr (some "photo.png") "" ∧
    (∀ fn2, (splitext (pyOr fn2 "")).2 = (splitext (pyOr (some "photo.png") "")).2 →
      upload_media ⟨"deadbeef", none, .ok "id1", true⟩ ⟨[], []⟩
          (some "image/png") fn2 "Front yard" none [7, 7] =
        (.ok ⟨"id1", "Uploaded", ⟨"Front yard", none, "image", "deadbeef.png",
            "/uploads/deadbeef.png", 2, "image/png"⟩⟩,
          ⟨[("deadbeef.png", [7, 7])],
            [⟨"Front yard", none, "image", "deadbeef.png",
              "/uploads/deadbeef.png", 2, "image/png"⟩]⟩)) :=
  upload_filename_token_extension ⟨"deadbeef", none, .ok "id1", true⟩ ⟨[], []⟩
    (some "image/png") (some "photo.png") "Front yard" none [7, 7]
    ⟨"id1", "Uploaded", ⟨"Front yard", none, "image", "deadbeef.png",
      "/uploads/deadbeef.png", 2, "image/png"⟩⟩
    ⟨[("deadbeef.png", [7, 7])],
      [⟨"Front yard", none, "image", "deadbeef.png",
        "/uploads/deadbeef.png", 2, "image/png"⟩]⟩ (by rfl)

instance : IsTotal Doc (fun a b => keyOf b ≤ keyOf a) :=
  ⟨fun a b => Nat.le_total (keyOf b) (keyOf a)⟩

instance : IsTrans Doc (fun a b => keyOf b ≤ keyOf a) :=
  ⟨fun _ _ _ hab hbc => le_trans hbc hab⟩

/-- Claim C5: a listing whose fetch succeeds always produces a 200
answer — in particular the sort over records with missing timestamps
never escapes as an error — and when every fetched record carries a
`created_at`, the returned list is ordered by `created_at` descending
and is a permutation of the (id-normalized) fetched records. -/
theorem listing_sorted_desc (env : ListEnv) (items : List Doc)
    (hf : env.fetch = .ok items) :
    (∃ out, list_media env = .ok out) ∧
    ((∀ d ∈ items, d.created_at.isSome = true) →
      ∃ out, list_media env = .ok out ∧
        List.Pairwise (fun a b => keyOf b ≤ keyOf a) out ∧
        out.Perm (items.map normalizeId)) := by
  unfold list_media
  rw [hf]
  constructor
  · exact ⟨_, rfl⟩
  · intro hall
    have hcond : (items.all fun d => d.created_at.isSome) = true := by
      rw [List.all_eq_true]
      intro d hd
      exact hall d hd
    simp only [hcond, if_true]
    refine ⟨_, rfl, ?_, ?_⟩
    · refine List.Pairwise.map _ ?_ (List.sorted_insertionSort _ items)
      intro a b hab
      rw [keyOf_normalizeId, keyOf_normalizeId]
      exact hab
    · exact (List.perm_insertionSort _ items).map normalizeId

/-- Witness for C5 on a two-record fetch with timestamps 2 and 7. -/
theorem listing_sorted_desc_witness :
    (∃ out, list_media ⟨.ok [⟨some (.vstr "x"), some 2, []⟩,
        ⟨some (.vint 3), some 7, []⟩]⟩ = .ok out) ∧
    ((∀ d ∈ [(⟨some (.vstr "x"), some 2, []⟩ : Doc),
        ⟨some (.vint 3), some 7, []⟩], d.created_at.isSome = true) →
      ∃ out, list_media ⟨.ok [⟨some (.vstr "x"), some 2, []⟩,
          ⟨some (.vint 3), some 7, []⟩]⟩ = .ok out ∧
        List.Pairwise (fun a b => keyOf b ≤ keyOf a) out ∧
        out.Perm ([(⟨some (.vstr "x"), some 2, []⟩ : Doc),
          ⟨some (.vint 3), some 7, []⟩].map normalizeId)) :=
  listing_sorted_desc ⟨.ok [⟨some (.vstr "x"), some 2, []⟩,
    ⟨some (.vint 3), some 7, []⟩]⟩ _ rfl

/-- Claim C9 is false as stated: a record whose `_id` is the integer 0
is falsy, so the normalization at src/main.py line 136 skips it and the
listing returns it with a non-string identifier. -/
theorem listing_id_string_counterexample :
    list_media ⟨.ok [⟨some (.vint 0), some 1, []⟩]⟩ =
      .ok [⟨some (.vint 0), some 1, []⟩] ∧
    isStringId ⟨some (.vint 0), some 1, []⟩ = false :=
  ⟨rfl, rfl⟩

/-- Claim C9 (amended): every record the listing returns is a fetched
record with its `_id` normalized — when the fetched `_id` is truthy the
returned `_id` is its string representation, and when it is falsy or
absent it is returned unchanged (hence possibly not a string). -/
theorem listing_id_normalized_when_truthy (env : ListEnv) (items out : List Doc)
    (hf : env.fetch = .ok items) (h : list_media env = .ok out) :
    ∀ d ∈ out, ∃ d0 ∈ items, d = normalizeId d0 ∧
      ((d0.idField.getD .vnone).truthy = true → ∃ s, d.idField = some (.vstr s)) ∧
      ((d0.idField.getD .vnone).truthy = false → d.idField = d0.idField) := by
  unfold list_media at h
  rw [hf] at h
  have main : ∀ l : List Doc, (∀ x ∈ l, x ∈ items) →
      ∀ d ∈ l.map normalizeId, ∃ d0 ∈ items, d = normalizeId d0 ∧
      ((d0.idField.getD .vnone).truthy = true → ∃ s, d.idField = some (.vstr s)) ∧
      ((d0.idField.getD .vnone).truthy = false → d.idField = d0.idField) := by
    intro l hl d hd
    rw [List.mem_map] at hd
    obtain ⟨x, hx, hdx⟩ := hd
    refine ⟨x, hl x hx, hdx.symm, ?_, ?_⟩
    · intro htr
      rw [← hdx]
      exact (normalizeId_spec x).1 htr
    · intro hfls
      rw [← hdx, (normalizeId_spec x).2 hfls]
  by_cases hcond : (items.all fun d => d.created_at.isSome) = true
  · simp only [hcond, if_true, Except.ok.injEq] at h
    subst h
    exact main _ (fun x hx => ((List.perm_insertionSort _ items).mem_iff).1 hx)
  · simp only [hcond, if_false, Except.ok.injEq] at h
    subst h
    exact main _ (fun x hx => hx)

/-- Witness for the amended C9: the first returned record of a
three-record fetch (a truthy string id, a falsy integer id, a missing
id) is a normalized fetched record. -/
theorem listing_id_normalized_when_truthy_witness :
    ∃ d0 ∈ [(⟨some (.vstr "abc"), some 3, []⟩ : Doc),
        ⟨some (.vint 0), some 2, []⟩, ⟨none, some 1, []⟩],
      (⟨some (.vstr "abc"), some 3, []⟩ : Doc) = normalizeId d0 ∧
      ((d0.idField.getD .vnone).truthy = true →
        ∃ s, (⟨some (.vstr "abc"), some 3, []⟩ : Doc).idField = some (.vstr s)) ∧
      ((d0.idField.getD .vnone).truthy = false →
        (⟨some (.vstr "abc"), some 3, []⟩ : Doc).idField = d0.idField) :=
  listing_id_normalized_when_truthy
    ⟨.ok [⟨some (.vstr "abc"), some 3, []⟩, ⟨some (.vint 0), some 2, []⟩,
      ⟨none, some 1, []⟩]⟩
    [⟨some (.vstr "abc"), some 3, []⟩, ⟨some (.vint 0), some 2, []⟩,
      ⟨none, some 1, []⟩]
    [⟨some (.vstr "abc"), some 3, []⟩, ⟨some (.vint 0), some 2, []⟩,
      ⟨none, some 1, []⟩]
    rfl rfl ⟨some (.vstr "abc"), some 3, []⟩ (by decide)

set_option maxRecDepth 8000

/-- Claim C7: for every state of the database module, handle,
collection listing and configuration variables, the diagnostics handler
returns HTTP 200 — an ok payload, never an HTTPError — with each
failure state reported as text inside that payload. -/
theorem diagnostics_always_ok (imp : DbImport) (dbUrlSet dbNameSet : Bool) :
    ∃ r, test_database imp dbUrlSet dbNameSet = .ok r ∧
      r.backend = "✅ Running" ∧
      (imp = .importErr →
        r.database = "❌ Database module not found (run enable-database first)") ∧
      (∀ e, imp = .otherErr e → r.database = "❌ Error: " ++ e.take 50) ∧
      (imp = .handle none → r.database = "⚠️  Available but not initialized") ∧
      (∀ db e, imp = .handle (some db) → db.listCollectionNames = .error e →
        r.database = "⚠️  Connected but Error: " ++ e.take 50) := by
  cases imp with
  | importErr =>
      refine ⟨⟨"✅ Running",
        "❌ Database module not found (run enable-database first)",
        some (if dbUrlSet then "✅ Set" else "❌ Not Set"),
        some (if dbNameSet then "✅ Set" else "❌ Not Set"),
        "Not Connected", []⟩, rfl, rfl, fun _ => rfl, fun e h => ?_,
        fun h => ?_, fun db e h _ => ?_⟩
      · exact DbImport.noConfusion h
      · exact DbImport.noConfusion h
      · exact DbImport.noConfusion h
  | otherErr m =>
      refine ⟨⟨"✅ Running", "❌ Error: " ++ m.take 50,
        some (if dbUrlSet then "✅ Set" else "❌ Not Set"),
        some (if dbNameSet then "✅ Set" else "❌ Not Set"),
        "Not Connected", []⟩, rfl, rfl, fun h => ?_, fun e h => ?_,
        fun h => ?_, fun db e h _ => ?_⟩
      · exact DbImport.noConfusion h
      · cases h
        rfl
      · exact DbImport.noConfusion h
      · exact DbImport.noConfusion h
  | handle db =>
      cases db with
      | none =>
          refine ⟨⟨"✅ Running", "⚠️  Available but not initialized",
            some (if dbUrlSet then "✅ Set" else "❌ Not Set"),
            some (if dbNameSet then "✅ Set" else "❌ Not Set"),
            "Not Connected", []⟩, rfl, rfl, fun h => ?_, fun e h => ?_,
            fun _ => rfl, fun db e h _ => ?_⟩
          · exact DbImport.noConfusion h
          · exact DbImport.noConfusion h
          · cases h
      | some dbh =>
          cases hlc : dbh.listCollectionNames with
          | error msg =>
              refine ⟨⟨"✅ Running", "⚠️  Connected but Error: " ++ msg.take 50,
                some (if dbUrlSet then "✅ Set" else "❌ Not Set"),
                some (if dbNameSet then "✅ Set" else "❌ Not Set"),
                "Connected", []⟩, ?_, rfl, fun h => ?_, fun e h => ?_,
                fun h => ?_, fun db2 e h h2 => ?_⟩
              · simp only [test_database, hlc]
              · exact DbImport.noConfusion h
              · exact DbImport.noConfusion h
              · cases h
              · cases h
                rw [hlc] at h2
                cases h2
                rfl
          | ok cols =>
              refine ⟨⟨"✅ Running", "✅ Connected & Working",
                some (if dbUrlSet then "✅ Set" else "❌ Not Set"),
                some (if dbNameSet then "✅ Set" else "❌ Not Set"),
                "Connected", cols.take 10⟩, ?_, rfl, fun h => ?_, fun e h => ?_,
                fun h => ?_, fun db2 e h h2 => ?_⟩
              · simp only [test_database, hlc]
              · exact DbImport.noConfusion h
              · exact DbImport.noConfusion h
              · cases h
              · cases h
                rw [hlc] at h2
                cases h2

end RealtorMedia
